import Mathlib

/-!
Shallow embedding of the aggregation / cache-reconciliation / export core of
the CalendarIT backend (`src/backend/yet_another_calendar/web/api/bulk/integration.py`).

Modelling conventions:
- `datetime.datetime` values are modelled as `Int` epoch timestamps; `astimezone`
  attaches a timezone name to the instant without changing it.
- The pytz timezone database is an explicit list of valid timezone names passed
  to `export_to_ics`.
- Upstream fetches and the cache backend are external collaborators: the outcome of
  each network call and of the cache write is passed in as an explicit argument, and
  the cache is explicit state threaded through the functions.
- `icalendar.Event.add` of a Python `None` value stores the text `str(None) = "None"`,
  modelled by `pyStr`.
-/

namespace CalendarIT

/-- Netology webinar event (from `netology/schema.py`, fields as used by
`integration.py`): identifier, title, optional start, optional end, optional
webinar URL. -/
structure NetologyEvent where
  id : Nat
  title : String
  starts_at : Option Int
  ends_at : Option Int
  webinar_url : Option String
  deriving DecidableEq, Repr

/-- Modeus lesson event: identifier, name, start, end, optional description. -/
structure ModeusEvent where
  id : String
  name : String
  start_time : Int
  end_time : Int
  description : Option String
  deriving DecidableEq, Repr

/-- The Netology part of a calendar response (`calendar.netology.webinars`). -/
structure NetologyCalendar where
  webinars : List NetologyEvent
  deriving DecidableEq, Repr

/-- `schema.CalendarResponse`: aggregate of both sources' events. -/
structure CalendarResponse where
  netology : NetologyCalendar
  modeus : List ModeusEvent
  deriving DecidableEq, Repr

/-- `schema.RefreshedCalendarResponse`: a calendar response plus the `changed` flag. -/
structure RefreshedCalendarResponse where
  netology : NetologyCalendar
  modeus : List ModeusEvent
  changed : Bool
  deriving DecidableEq, Repr

/-- `fastapi.HTTPException` as raised by `integration.py`: a detail message and a
numeric status code. -/
structure HTTPException where
  detail : String
  status_code : Nat
  deriving DecidableEq, Repr

/-- A timezone-localized datetime: `astimezone` keeps the instant and attaches the
target timezone name. -/
structure LocalDateTime where
  instant : Int
  tzname : String
  deriving DecidableEq, Repr

/-- `dt.astimezone(tz)`. -/
def astimezone (t : Int) (tz : String) : LocalDateTime := ⟨t, tz⟩

/-- Python `str` applied to an optional string: `str(None) = "None"`. Used because
`icalendar` stores `vText(value)` which stringifies `None`. -/
def pyStr : Option String → String
  | some s => s
  | none => "None"

/-- One `icalendar.Event` as built by `create_ics_event`: `location = some v` means
the serialized entry carries a `LOCATION` property with text `v`. -/
structure IcsEvent where
  summary : String
  location : Option String
  dtstart : LocalDateTime
  dtend : LocalDateTime
  dtstamp : LocalDateTime
  uid : String
  description : Option String
  deriving DecidableEq, Repr

/-- One `icalendar.Calendar` document as built by `export_to_ics`. -/
structure IcsCalendar where
  version : String
  prodid : String
  events : List IcsEvent
  deriving DecidableEq, Repr

/-- `create_ics_event` (integration.py:23-36). `now` is `datetime.datetime.now(tz)`,
passed explicitly. Note the source adds `location` unconditionally
(`event.add('location', webinar_url)`), so an absent webinar URL is stored as the
text `"None"`; `description` is added only when truthy (non-`None`, non-empty). -/
def create_ics_event (title : String) (starts_at ends_at : Int) (lesson_id : String)
    (timezone : String) (now : Int) (description : Option String)
    (webinar_url : Option String) : IcsEvent :=
  { summary := title
    location := some (pyStr webinar_url)
    dtstart := astimezone starts_at timezone
    dtend := astimezone ends_at timezone
    dtstamp := astimezone now timezone
    uid := lesson_id
    description :=
      match description with
      | some d => if d = "" then none else some d
      | none => none }

/-- The body of the Netology loop in `export_to_ics` (integration.py:48-54): an event
missing its start or end is skipped (`continue`), otherwise one entry is produced. -/
def netologyIcs (tz : String) (now : Int) (l : NetologyEvent) : Option IcsEvent :=
  match l.starts_at, l.ends_at with
  | some s, some e =>
      some (create_ics_event ("Netology: " ++ l.title) s e (toString l.id) tz now
        none l.webinar_url)
  | _, _ => none

/-- The body of the Modeus loop in `export_to_ics` (integration.py:55-60): every
Modeus lesson produces one entry. -/
def modeusIcs (tz : String) (now : Int) (l : ModeusEvent) : IcsEvent :=
  create_ics_event ("Modeus: " ++ l.name) l.start_time l.end_time l.id tz now
    l.description none

/-- `export_to_ics` (integration.py:39-61). `tzdb` is the pytz timezone database
(list of valid names); an unknown name raises HTTP 400 "Wrong timezone" before any
event is processed. -/
def export_to_ics (calendar : CalendarResponse) (timezone : String)
    (tzdb : List String) (now : Int) : Except HTTPException IcsCalendar :=
  if timezone ∈ tzdb then
    Except.ok
      { version := "2.0"
        prodid := "yet_another_calendar"
        events := calendar.netology.webinars.filterMap (netologyIcs timezone now)
          ++ calendar.modeus.map (modeusIcs timezone now) }
  else
    Except.error ⟨"Wrong timezone", 400⟩

/-- An upstream fetch failure (network / auth / parse error), treated opaquely. -/
abbrev FetchError := String

/-- `get_calendar` (integration.py:91-102): both upstream fetches run in an
`asyncio.TaskGroup`; the snapshot is built only from both results, and if either
task fails the whole operation fails (the TaskGroup re-raises). Each argument is
the outcome of the corresponding network call in this execution. -/
def get_calendar (netology_result : Except FetchError NetologyCalendar)
    (modeus_result : Except FetchError (List ModeusEvent)) :
    Except FetchError CalendarResponse :=
  match netology_result, modeus_result with
  | Except.error e, _ => Except.error e
  | Except.ok _, Except.error e => Except.error e
  | Except.ok n, Except.ok m => Except.ok ⟨n, m⟩

/-- The cache backend's key/value store. Serialization (`coder.encode`/`decode`) is
a bijection and is elided: values are stored as snapshots. TTL expiry is passive
and not modelled (no claim involves the passage of time). -/
abbrev Cache := List (String × CalendarResponse)

/-- `backend.get(key)`. -/
def cacheGet (c : Cache) (k : String) : Option CalendarResponse :=
  (c.find? (fun kv => kv.1 = k)).map (fun kv => kv.2)

/-- `backend.set(key, value, expire)`: overwrites any prior value for the key
(lookup sees the newest binding first). -/
def cacheSet (c : Cache) (k : String) (v : CalendarResponse) : Cache := (k, v) :: c

/-- The request-parameter tuple `(body, jwt_token, calendar_id, cookies)` shared by
`get_calendar`, `get_cached_calendar` and `refresh_events`. The Modeus body and the
Netology cookies are opaque serialized values. -/
structure Params where
  body : String
  jwt_token : String
  calendar_id : Int
  cookies : String
  deriving DecidableEq, Repr

/-- Modelled from the spec: `fastapi_cache.default_key_builder` applied to
`get_cached_calendar` and the request-parameter tuple (the library and the
application wiring are outside `src/`). Per the spec it is a stable, deterministic
keying function of the four request values; here a digest is modelled as the tagged
concatenation of the tuple's fields. -/
def default_key_builder (p : Params) : String :=
  "bulk.integration:get_cached_calendar:" ++ p.body ++ ":" ++ p.jwt_token ++ ":"
    ++ toString p.calendar_id ++ ":" ++ p.cookies

/-- The full cache key: the configured Redis namespace, a colon, then the built key.
The write in `refresh_events` (integration.py:80) forms it explicitly; per the spec
the `@cache` decorator's read path derives the same key for the same parameters. -/
def cache_key (redis_namespace : String) (p : Params) : String :=
  redis_namespace ++ ":" ++ default_key_builder p

/-- `get_cached_calendar` (integration.py:105-112) together with its `@cache`
decorator. Modelled from the spec: the decorator (library code outside `src/`) is
the cache-aside wrapper of §9 — check the cache under the derived key; on a hit
return the cached snapshot; on a miss run the wrapped body (`get_calendar`),
store its result under the key, and return it. Returns the snapshot and the
possibly-updated cache; an upstream failure on the miss path propagates. -/
def get_cached_calendar (redis_namespace : String) (p : Params) (c : Cache)
    (netology_result : Except FetchError NetologyCalendar)
    (modeus_result : Except FetchError (List ModeusEvent)) :
    Except FetchError (CalendarResponse × Cache) :=
  match cacheGet c (cache_key redis_namespace p) with
  | some v => Except.ok (v, c)
  | none =>
      match get_calendar netology_result modeus_result with
      | Except.ok cal => Except.ok (cal, cacheSet c (cache_key redis_namespace p) cal)
      | Except.error e => Except.error e

/-- A failure of `refresh_events`: either a propagated upstream fetch failure, or
the `HTTPException` it raises itself when the cache write fails. -/
inductive RefreshError where
  | upstream : FetchError → RefreshError
  | http : HTTPException → RefreshError
  deriving DecidableEq, Repr

/-- `refresh_events` (integration.py:64-88). `hash` is
`schema.CalendarResponse.get_hash` (defined in the schema module, outside `src/`),
passed as an opaque deterministic function. `net₁`/`mod₁` are the outcomes of the
upstream calls made by `get_cached_calendar` if its miss path runs; `net₂`/`mod₂`
are the outcomes of the upstream calls of the explicit `get_calendar` call;
`write_ok` is whether `backend.set` succeeds. Steps: read (or compute) the cached
snapshot, fetch fresh, compare hashes, write the fresh snapshot through under the
derived key (a failing write raises HTTP 500 "Can't refresh redis"), and return the
fresh snapshot with the `changed` flag. -/
def refresh_events (redis_namespace : String) (p : Params)
    (hash : CalendarResponse → Nat) (c : Cache)
    (net₁ : Except FetchError NetologyCalendar)
    (mod₁ : Except FetchError (List ModeusEvent))
    (net₂ : Except FetchError NetologyCalendar)
    (mod₂ : Except FetchError (List ModeusEvent))
    (write_ok : Bool) :
    Except RefreshError (RefreshedCalendarResponse × Cache) :=
  match get_cached_calendar redis_namespace p c net₁ mod₁ with
  | Except.error e => Except.error (RefreshError.upstream e)
  | Except.ok (cached_calendar, c₁) =>
      match get_calendar net₂ mod₂ with
      | Except.error e => Except.error (RefreshError.upstream e)
      | Except.ok calendar =>
          if write_ok then
            Except.ok
              (⟨calendar.netology, calendar.modeus,
                  hash cached_calendar != hash calendar⟩,
                cacheSet c₁ (cache_key redis_namespace p) calendar)
          else
            Except.error (RefreshError.http ⟨"Can't refresh redis", 500⟩)

/-! Concrete sample data (timestamps are the epoch seconds of the spec's
2024-01-01 scenario). -/

/-- Netology event {id: 1, title: "Math", 10:00Z-11:00Z}. -/
def mathWebinar : NetologyEvent := ⟨1, "Math", some 1704103200, some 1704106800, none⟩

/-- Modeus event {id: 2, name: "Physics", 12:00Z-13:00Z}. -/
def physicsLesson : ModeusEvent := ⟨"2", "Physics", 1704110400, 1704114000, none⟩

/-- A Netology event with no start time (not exportable). -/
def skippedWebinar : NetologyEvent := ⟨3, "Draft", none, some 1704110000, none⟩

/-- The spec's concrete scenario snapshot. -/
def sampleCalendar : CalendarResponse := ⟨⟨[mathWebinar]⟩, [physicsLesson]⟩

/-- A snapshot that also contains a non-exportable Netology event. -/
def mixedCalendar : CalendarResponse := ⟨⟨[mathWebinar, skippedWebinar]⟩, [physicsLesson]⟩

/-- A snapshot with no events at all. -/
def emptyCalendar : CalendarResponse := ⟨⟨[]⟩, []⟩

/-- A concrete stand-in for `get_hash`: snapshots with different numbers of Modeus
events hash differently. -/
def modeusCount (cal : CalendarResponse) : Nat := cal.modeus.length

/-- A concrete request-parameter tuple. -/
def sampleParams : Params := ⟨"body", "jwt", 42, "cookies"⟩

/-- A cache holding `emptyCalendar` under the key derived for `sampleParams`. -/
def sampleCache : Cache := [(cache_key "redis" sampleParams, emptyCalendar)]

/-- The Netology loop of `export_to_ics` keeps exactly the events with both times
present, in order, and emits one entry for each. -/
theorem netology_filterMap_eq (tz : String) (now : Int) (ws : List NetologyEvent) :
    ws.filterMap (netologyIcs tz now) =
      (ws.filter (fun l => l.starts_at.isSome && l.ends_at.isSome)).map
        (fun l => create_ics_event ("Netology: " ++ l.title) (l.starts_at.getD 0)
          (l.ends_at.getD 0) (toString l.id) tz now none l.webinar_url) := by
  induction ws with
  | nil => rfl
  | cons l ws ih =>
      cases hs : l.starts_at <;> cases he : l.ends_at <;>
        simp [List.filterMap_cons, List.filter_cons, netologyIcs, hs, he, ih]

/-- C1 counterexample: the claim says a refresh with no cached snapshot under the
derived key fails with a cache-miss error; but on an empty cache (and successful
fetches and write) `refresh_events` succeeds and returns a refreshed snapshot —
the `@cache` decorator computes and stores the value on a miss. -/
theorem C1_empty_cache_refresh_succeeds :
    refresh_events "redis" sampleParams (fun _ => 0) []
      (Except.ok ⟨[mathWebinar]⟩) (Except.ok [physicsLesson])
      (Except.ok ⟨[mathWebinar]⟩) (Except.ok [physicsLesson]) true =
      Except.ok (⟨⟨[mathWebinar]⟩, [physicsLesson], false⟩,
        cacheSet (cacheSet [] (cache_key "redis" sampleParams) sampleCalendar)
          (cache_key "redis" sampleParams) sampleCalendar) := by
  rfl

/-- C1 (amended): when no cached snapshot exists under the derived key,
`refresh_events` does not fail with a cache-miss error: the cached-read step
computes a fresh snapshot (caching it), and — provided the upstream fetches and the
cache write succeed — the refresh returns a `RefreshedCalendarResponse` built from
the second fetch, with the cache written through. -/
theorem C1_cache_miss_computes (ns : String) (p : Params)
    (hash : CalendarResponse → Nat) (c : Cache) (n₁ : NetologyCalendar)
    (m₁ : List ModeusEvent) (n₂ : NetologyCalendar) (m₂ : List ModeusEvent)
    (hmiss : cacheGet c (cache_key ns p) = none) :
    refresh_events ns p hash c (Except.ok n₁) (Except.ok m₁) (Except.ok n₂)
        (Except.ok m₂) true =
      Except.ok (⟨n₂, m₂, hash ⟨n₁, m₁⟩ != hash ⟨n₂, m₂⟩⟩,
        cacheSet (cacheSet c (cache_key ns p) ⟨n₁, m₁⟩) (cache_key ns p) ⟨n₂, m₂⟩) := by
  unfold refresh_events get_cached_calendar get_calendar
  rw [hmiss]
  rfl

/-- C1 witness: the amended statement at a concrete input. -/
theorem C1_cache_miss_computes_witness :
    refresh_events "redis" sampleParams (fun _ => 0) []
      (Except.ok ⟨[]⟩) (Except.ok []) (Except.ok ⟨[mathWebinar]⟩)
      (Except.ok [physicsLesson]) true =
      Except.ok (⟨⟨[mathWebinar]⟩, [physicsLesson], false⟩,
        cacheSet (cacheSet [] (cache_key "redis" sampleParams) ⟨⟨[]⟩, []⟩)
          (cache_key "redis" sampleParams) ⟨⟨[mathWebinar]⟩, [physicsLesson]⟩) :=
  C1_cache_miss_computes "redis" sampleParams (fun _ => 0) [] ⟨[]⟩ []
    ⟨[mathWebinar]⟩ [physicsLesson] rfl

/-- C2: if either upstream fetch of `get_calendar` fails, the whole operation fails
(the error is propagated) and no snapshot — in particular no partial snapshot — is
returned. -/
theorem C2_aggregation_atomic (netology_result : Except FetchError NetologyCalendar)
    (modeus_result : Except FetchError (List ModeusEvent))
    (h : (∃ e, netology_result = Except.error e) ∨
      (∃ e, modeus_result = Except.error e)) :
    (∃ e, get_calendar netology_result modeus_result = Except.error e) ∧
      ∀ s, get_calendar netology_result modeus_result ≠ Except.ok s := by
  cases netology_result with
  | error e => exact ⟨⟨e, rfl⟩, fun s hs => by simp [get_calendar] at hs⟩
  | ok n =>
      cases modeus_result with
      | error e => exact ⟨⟨e, rfl⟩, fun s hs => by simp [get_calendar] at hs⟩
      | ok m => rcases h with ⟨e, he⟩ | ⟨e, he⟩ <;> simp at he

/-- C2 witness: a failed Netology fetch with a successful Modeus fetch. -/
theorem C2_aggregation_atomic_witness :
    (∃ e, get_calendar (Except.error "netology down") (Except.ok [physicsLesson]) =
        Except.error e) ∧
      ∀ s, get_calendar (Except.error "netology down") (Except.ok [physicsLesson]) ≠
        Except.ok s :=
  C2_aggregation_atomic (Except.error "netology down") (Except.ok [physicsLesson])
    (Or.inl ⟨"netology down", rfl⟩)

/-- C3: for every successful refresh, the returned `changed` flag is true exactly
when the hash of the cached snapshot differs from the hash of the freshly fetched
snapshot. -/
theorem C3_changed_iff_hash_differs (ns : String) (p : Params)
    (hash : CalendarResponse → Nat) (c : Cache)
    (net₁ : Except FetchError NetologyCalendar)
    (mod₁ : Except FetchError (List ModeusEvent))
    (net₂ : Except FetchError NetologyCalendar)
    (mod₂ : Except FetchError (List ModeusEvent))
    (cached : CalendarResponse) (c₁ : Cache) (fresh : CalendarResponse)
    (r : RefreshedCalendarResponse) (c₂ : Cache)
    (h₁ : get_cached_calendar ns p c net₁ mod₁ = Except.ok (cached, c₁))
    (h₂ : get_calendar net₂ mod₂ = Except.ok fresh)
    (h₃ : refresh_events ns p hash c net₁ mod₁ net₂ mod₂ true = Except.ok (r, c₂)) :
    (r.changed = true ↔ hash cached ≠ hash fresh) := by
  unfold refresh_events at h₃
  rw [h₁, h₂] at h₃
  simp at h₃
  obtain ⟨hr, -⟩ := h₃
  rw [← hr]
  simp [bne_iff_ne]

/-- C3 witness: a cache hit on `emptyCalendar` followed by a fresh fetch of
`sampleCalendar`, with a hash by Modeus event count (0 vs 1), yields `changed = true`. -/
theorem C3_changed_iff_hash_differs_witness :
    ((⟨⟨[mathWebinar]⟩, [physicsLesson], true⟩ : RefreshedCalendarResponse).changed = true
      ↔ modeusCount emptyCalendar ≠ modeusCount sampleCalendar) :=
  C3_changed_iff_hash_differs "redis" sampleParams modeusCount sampleCache
    (Except.ok ⟨[]⟩) (Except.ok []) (Except.ok ⟨[mathWebinar]⟩)
    (Except.ok [physicsLesson]) emptyCalendar sampleCache sampleCalendar
    ⟨⟨[mathWebinar]⟩, [physicsLesson], true⟩
    (cacheSet sampleCache (cache_key "redis" sampleParams) sampleCalendar)
    rfl rfl rfl

/-- C4: when the cached read and the fresh fetch succeed but the cache write fails,
`refresh_events` raises HTTP 500 "Can't refresh redis" instead of returning the
fresh snapshot. -/
theorem C4_write_failure_raises_500 (ns : String) (p : Params)
    (hash : CalendarResponse → Nat) (c : Cache)
    (net₁ : Except FetchError NetologyCalendar)
    (mod₁ : Except FetchError (List ModeusEvent))
    (net₂ : Except FetchError NetologyCalendar)
    (mod₂ : Except FetchError (List ModeusEvent))
    (cached : CalendarResponse) (c₁ : Cache) (fresh : CalendarResponse)
    (h₁ : get_cached_calendar ns p c net₁ mod₁ = Except.ok (cached, c₁))
    (h₂ : get_calendar net₂ mod₂ = Except.ok fresh) :
    refresh_events ns p hash c net₁ mod₁ net₂ mod₂ false =
      Except.error (RefreshError.http ⟨"Can't refresh redis", 500⟩) := by
  unfold refresh_events
  rw [h₁, h₂]
  rfl

/-- C4 witness: the write-failure path at a concrete input. -/
theorem C4_write_failure_raises_500_witness :
    refresh_events "redis" sampleParams modeusCount sampleCache (Except.ok ⟨[]⟩)
      (Except.ok []) (Except.ok ⟨[mathWebinar]⟩) (Except.ok [physicsLesson]) false =
      Except.error (RefreshError.http ⟨"Can't refresh redis", 500⟩) :=
  C4_write_failure_raises_500 "redis" sampleParams modeusCount sampleCache
    (Except.ok ⟨[]⟩) (Except.ok []) (Except.ok ⟨[mathWebinar]⟩)
    (Except.ok [physicsLesson]) emptyCalendar sampleCache sampleCalendar rfl rfl

/-- C5: after any successful refresh, reading through `get_cached_calendar` with the
same parameters hits the cache under the same derived key and returns the freshly
fetched snapshot (whatever the outcomes of the would-be upstream calls). -/
theorem C5_write_through (ns : String) (p : Params)
    (hash : CalendarResponse → Nat) (c : Cache)
    (net₁ : Except FetchError NetologyCalendar)
    (mod₁ : Except FetchError (List ModeusEvent))
    (net₂ : Except FetchError NetologyCalendar)
    (mod₂ : Except FetchError (List ModeusEvent))
    (fresh : CalendarResponse) (r : RefreshedCalendarResponse) (c₂ : Cache)
    (h₂ : get_calendar net₂ mod₂ = Except.ok fresh)
    (h₃ : refresh_events ns p hash c net₁ mod₁ net₂ mod₂ true = Except.ok (r, c₂))
    (net : Except FetchError NetologyCalendar)
    (mod : Except FetchError (List ModeusEvent)) :
    get_cached_calendar ns p c₂ net mod = Except.ok (fresh, c₂) := by
  unfold refresh_events at h₃
  rw [h₂] at h₃
  cases hgc : get_cached_calendar ns p c net₁ mod₁ with
  | error e => rw [hgc] at h₃; simp at h₃
  | ok pr =>
      obtain ⟨cached, c₁⟩ := pr
      rw [hgc] at h₃
      simp at h₃
      obtain ⟨-, hc⟩ := h₃
      rw [← hc]
      simp [get_cached_calendar, cacheGet, cacheSet]

/-- C5 witness: after the refresh of the C3 witness, a read with the same
parameters returns the fresh `sampleCalendar`. -/
theorem C5_write_through_witness :
    get_cached_calendar "redis" sampleParams
      (cacheSet sampleCache (cache_key "redis" sampleParams) sampleCalendar)
      (Except.ok ⟨[]⟩) (Except.ok []) =
      Except.ok (sampleCalendar,
        cacheSet sampleCache (cache_key "redis" sampleParams) sampleCalendar) :=
  C5_write_through "redis" sampleParams modeusCount sampleCache (Except.ok ⟨[]⟩)
    (Except.ok []) (Except.ok ⟨[mathWebinar]⟩) (Except.ok [physicsLesson])
    sampleCalendar ⟨⟨[mathWebinar]⟩, [physicsLesson], true⟩
    (cacheSet sampleCache (cache_key "redis" sampleParams) sampleCalendar)
    rfl rfl (Except.ok ⟨[]⟩) (Except.ok [])

/-- C6: for every snapshot, a timezone name not in the timezone database makes
`export_to_ics` fail with the HTTP 400 "Wrong timezone" error before any event
entry is produced, and a valid timezone name never raises that error. -/
theorem C6_timezone_validation (cal : CalendarResponse) (tzdb : List String)
    (timezone : String) (now : Int) :
    (timezone ∉ tzdb →
        export_to_ics cal timezone tzdb now = Except.error ⟨"Wrong timezone", 400⟩) ∧
      (timezone ∈ tzdb →
        ∃ doc, export_to_ics cal timezone tzdb now = Except.ok doc) := by
  constructor
  · intro h
    simp [export_to_ics, h]
  · intro h
    refine ⟨⟨"2.0", "yet_another_calendar",
      cal.netology.webinars.filterMap (netologyIcs timezone now)
        ++ cal.modeus.map (modeusIcs timezone now)⟩, ?_⟩
    unfold export_to_ics
    rw [if_pos h]

/-- C6 witness: "Not/AZone" is rejected with HTTP 400; "UTC" succeeds. -/
theorem C6_timezone_validation_witness :
    export_to_ics sampleCalendar "Not/AZone" ["UTC"] 0 =
        Except.error ⟨"Wrong timezone", 400⟩ ∧
      ∃ doc, export_to_ics sampleCalendar "UTC" ["UTC"] 0 = Except.ok doc :=
  ⟨(C6_timezone_validation sampleCalendar ["UTC"] "Not/AZone" 0).1 (by decide),
    (C6_timezone_validation sampleCalendar ["UTC"] "UTC" 0).2 (by decide)⟩

/-- C7: for every snapshot and valid timezone, export succeeds (missing times never
cause a failure) and emits exactly one entry per Netology event with both times
present — so zero entries for each event missing a time — plus one per Modeus
event. -/
theorem C7_skip_rule (cal : CalendarResponse) (tzdb : List String)
    (timezone : String) (now : Int) (h : timezone ∈ tzdb) :
    ∃ doc, export_to_ics cal timezone tzdb now = Except.ok doc ∧
      doc.events.length =
        (cal.netology.webinars.filter
            (fun l => l.starts_at.isSome && l.ends_at.isSome)).length
          + cal.modeus.length := by
  refine ⟨⟨"2.0", "yet_another_calendar",
    cal.netology.webinars.filterMap (netologyIcs timezone now)
      ++ cal.modeus.map (modeusIcs timezone now)⟩, ?_, ?_⟩
  · unfold export_to_ics
    rw [if_pos h]
  · simp [netology_filterMap_eq]

/-- C7 witness: the mixed snapshot (one exportable Netology event, one with no
start time, one Modeus event) yields 1 + 1 entries. -/
theorem C7_skip_rule_witness :
    ∃ doc, export_to_ics mixedCalendar "UTC" ["UTC"] 0 = Except.ok doc ∧
      doc.events.length =
        (mixedCalendar.netology.webinars.filter
            (fun l => l.starts_at.isSome && l.ends_at.isSome)).length
          + mixedCalendar.modeus.length :=
  C7_skip_rule mixedCalendar ["UTC"] "UTC" 0 (by decide)

/-- C8: the claim says an exportable event's entry carries no location field when
the webinar URL is absent; but `create_ics_event` adds the location property
unconditionally, so the Modeus event {id: 2, name: "Physics"} (which has no webinar
URL) produces an entry that still carries a LOCATION property, holding the Python
string of `None`. -/
theorem C8_location_always_added :
    (modeusIcs "UTC" 0 physicsLesson).location = some "None" := rfl

/-- C9: exporting the spec's concrete snapshot (Netology "Math", Modeus "Physics")
with timezone "UTC" yields exactly two entries, with summaries "Netology: Math"
and "Modeus: Physics". -/
theorem C9_concrete_scenario :
    (export_to_ics sampleCalendar "UTC" ["UTC"] 0).map
        (fun doc => doc.events.map (fun e => e.summary)) =
      Except.ok ["Netology: Math", "Modeus: Physics"] := by
  rfl

/-- C10: for every snapshot and valid timezone, the exported document is exactly
the entries of the exportable Netology events, in snapshot order, followed by the
entries of the Modeus events, in snapshot order. -/
theorem C10_netology_before_modeus (cal : CalendarResponse) (tzdb : List String)
    (timezone : String) (now : Int) (h : timezone ∈ tzdb) :
    export_to_ics cal timezone tzdb now = Except.ok
      { version := "2.0"
        prodid := "yet_another_calendar"
        events :=
          (cal.netology.webinars.filter
              (fun l => l.starts_at.isSome && l.ends_at.isSome)).map
            (fun l => create_ics_event ("Netology: " ++ l.title) (l.starts_at.getD 0)
              (l.ends_at.getD 0) (toString l.id) timezone now none l.webinar_url)
          ++ cal.modeus.map (modeusIcs timezone now) } := by
  simp [export_to_ics, h, netology_filterMap_eq]

/-- C10 witness: the grouped, order-preserving form at the mixed snapshot. -/
theorem C10_netology_before_modeus_witness :
    export_to_ics mixedCalendar "UTC" ["UTC"] 0 = Except.ok
      { version := "2.0"
        prodid := "yet_another_calendar"
        events :=
          (mixedCalendar.netology.webinars.filter
              (fun l => l.starts_at.isSome && l.ends_at.isSome)).map
            (fun l => create_ics_event ("Netology: " ++ l.title) (l.starts_at.getD 0)
              (l.ends_at.getD 0) (toString l.id) "UTC" 0 none l.webinar_url)
          ++ mixedCalendar.modeus.map (modeusIcs "UTC" 0) } :=
  C10_netology_before_modeus mixedCalendar ["UTC"] "UTC" 0 (by decide)

end CalendarIT
